import Mathlib

/-!
Verification of the tkCompass animated compass widget.

The development shallowly embeds the two core source files:
  damped_spring.py : class DampedSpring, a 1-D damped spring-mass system
                     advanced with semi-explicit Euler steps;
  compass_widget.py: class Compass, an animation state machine that moves
                     the needle toward a target angle and then drives a
                     damped bounce from a freshly built DampedSpring.

Python floats are modelled as elements of a linear ordered field; the
oscillator claims are settled over the rationals (fully executable) and
the widget claims over a generic field, instantiated at the reals where
the source pins constants to multiples of pi.  Stateful methods become
pure functions from a state record to a new state record, paired with the
list of pubsub events they emit.
-/

/-- State of damped_spring.py class DampedSpring: time step dt, spring
constant k, mass m, drag k1_drag, height h, velocity v, acceleration a,
and the derived energies K, V, E. -/
structure DampedSpring (α : Type) where
  dt : α
  k : α
  m : α
  k1_drag : α
  h : α
  v : α
  a : α
  K : α
  V : α
  E : α
  deriving DecidableEq

variable {α : Type} [LinearOrderedField α]

/-- DampedSpring.calc_energy: K = m*v^2/2, V = k*h^2/2, E = K + V,
assigned in that order. -/
def DampedSpring.calc_energy (s : DampedSpring α) : DampedSpring α :=
  let K := s.m * s.v ^ 2 / 2
  let V := s.k * s.h ^ 2 / 2
  { s with K := K, V := V, E := K + V }

/-- DampedSpring.calc_force: a = -k/m*h - k1_drag/m*v, then v += a*dt,
then h += v*dt (each line reading the value just written), then
calc_energy. -/
def DampedSpring.calc_force (s : DampedSpring α) : DampedSpring α :=
  let a := -s.k / s.m * s.h - s.k1_drag / s.m * s.v
  let v := s.v + a * s.dt
  let h := s.h + v * s.dt
  DampedSpring.calc_energy { s with a := a, v := v, h := h }

/-- DampedSpring.bounce: one calc_force step, returning the new height
together with the new state. -/
def DampedSpring.bounce (s : DampedSpring α) : DampedSpring α × α :=
  let s' := DampedSpring.calc_force s
  (s', s'.h)

/-- DampedSpring.__init__: stores the parameters, seeds h = h0, v = v0,
a = K = V = E = 0, then runs calc_energy and calc_force.  Note that the
constructor therefore already performs one full integration step. -/
def DampedSpring.init (dt k m k1_drag h0 v0 : α) : DampedSpring α :=
  DampedSpring.calc_force (DampedSpring.calc_energy
    { dt := dt, k := k, m := m, k1_drag := k1_drag,
      h := h0, v := v0, a := 0, K := 0, V := 0, E := 0 })

/-- Animation phase of the Compass state machine, as drawn in the
docstring of Compass.animate: Finished (Idle), Move, Bounce. -/
inductive Phase where
  | Idle
  | Moving
  | Bouncing
  deriving DecidableEq

/-- Which routine the scheduled callback self.animation_next points to. -/
inductive NextStep where
  | move
  | bounce
  deriving DecidableEq

/-- Pubsub messages sent by the Compass core. -/
inductive Event (α : Type) where
  | animation_begin
  | animation_end (duration : α)
  deriving DecidableEq

/-- State of compass_widget.py class Compass (the animation core; canvas,
image and mouse-pan glue is omitted).  render_angle records the angle
most recently passed to display_compass, i.e. what is drawn this frame. -/
structure CompassState (α : Type) where
  angle_max : α
  angle_min : α
  angle_resolution : α
  angle_step : α
  angle : α
  animation_angle : α
  render_angle : α
  animation_max_time : α
  animation_active : Bool
  animation_direction : ℤ
  animation_next : NextStep
  k : α
  m : α
  k1_drag : α
  v0 : α
  h0 : α
  dt : α
  spring : Option (DampedSpring α)
  deriving DecidableEq

/-- Compass.display_compass: draw the disc at the given angle, defaulting
to animation_angle when called with no argument (angle = none). -/
def Compass.display_compass (s : CompassState α) (angle : Option α) : CompassState α :=
  { s with render_angle := angle.getD s.animation_angle }

/-- Compass.angle_limit: saturate the angle into [angle_min, angle_max]. -/
def Compass.angle_limit (s : CompassState α) (angle : α) : α :=
  if angle < s.angle_min then s.angle_min
  else if angle > s.angle_max then s.angle_max
  else angle

/-- Compass.animate_move: while the distance to the target exceeds one
step of angle_step * angle_resolution, advance animation_angle by one
step in animation_direction and redraw; otherwise build a fresh
DampedSpring from the configured parameters and hand the animation over
to animate_bounce. -/
def Compass.animate_move (s : CompassState α) : CompassState α × List (Event α) :=
  if |s.angle - s.animation_angle| > s.angle_step * s.angle_resolution then
    let s' := { s with animation_angle :=
      s.animation_angle + s.angle_step * s.angle_resolution * (s.animation_direction : α) }
    (Compass.display_compass s' none, [])
  else
    ({ s with
        spring := some (DampedSpring.init s.dt s.k s.m s.k1_drag s.h0 s.v0),
        animation_next := NextStep.bounce }, [])

/-- Compass.animate_bounce: advance the spring one step; while
elapsed < animation_max_time or the new height exceeds 0.001 in absolute
value, draw angle plus or minus the height (by animation_direction) and
continue; otherwise clear animation_active, snap animation_angle to the
target angle, redraw, and send animation_end with the elapsed duration.
elapsed stands for time.time() - animation_start_time at this callback.
The none branch of the match is unreachable in runs of the widget: the
bounce callback is only ever scheduled after animate_move stored a
spring. -/
def Compass.animate_bounce (elapsed : α) (s : CompassState α) : CompassState α × List (Event α) :=
  match s.spring with
  | none => (s, [])
  | some sp =>
    let r := DampedSpring.bounce sp
    let s' := { s with spring := some r.1 }
    let swing := r.2
    if elapsed < s'.animation_max_time ∨ |swing| > 1 / 1000 then
      let angle := if s'.animation_direction > 0 then s'.angle + swing else s'.angle - swing
      (Compass.display_compass s' (some angle), [])
    else
      let s'' := { s' with animation_active := false, animation_angle := s'.angle }
      (Compass.display_compass s'' none, [Event.animation_end elapsed])

/-- Compass.animate: mark the animation active, send animation_begin,
record the start time (so the immediately following callback sees elapsed
time zero) and run the pending animation routine once. -/
def Compass.animate (s : CompassState α) : CompassState α × List (Event α) :=
  let s' := { s with animation_active := true }
  let r := match s'.animation_next with
    | NextStep.move => Compass.animate_move s'
    | NextStep.bounce => Compass.animate_bounce 0 s'
  (r.1, Event.animation_begin :: r.2)

/-- Compass.angle setter: clamp the value through angle_limit into
self.angle, recompute animation_direction (+1 when the new target lies
above animation_angle, else -1), point the next callback at
animate_move, and start the animation when none is active. -/
def Compass.set_angle (s : CompassState α) (value : α) : CompassState α × List (Event α) :=
  let s1 := { s with angle := Compass.angle_limit s value }
  let s2 := { s1 with animation_direction :=
    if s1.angle > s1.animation_angle then 1 else -1 }
  let s3 := { s2 with animation_next := NextStep.move }
  if s3.animation_active then (s3, []) else Compass.animate s3

/-- One scheduler tick: run the pending callback (animate_move or
animate_bounce).  When no animation is active no callback is pending, so
a tick is a no-op. -/
def Compass.tick (elapsed : α) (s : CompassState α) : CompassState α × List (Event α) :=
  if s.animation_active then
    match s.animation_next with
    | NextStep.move => Compass.animate_move s
    | NextStep.bounce => Compass.animate_bounce elapsed s
  else (s, [])

/-- Run n scheduler ticks at a fixed cadence: the i-th tick (1-based)
observes elapsed time i * interval. -/
def Compass.tickN (interval : α) (s : CompassState α) : ℕ → CompassState α
  | 0 => s
  | n + 1 => (Compass.tick (((n + 1 : ℕ) : α) * interval) (Compass.tickN interval s n)).1

/-- Phase of the animation state machine. -/
def Compass.phase (s : CompassState α) : Phase :=
  if s.animation_active then
    match s.animation_next with
    | NextStep.move => Phase.Moving
    | NextStep.bounce => Phase.Bouncing
  else Phase.Idle

/-- Python str.upper for the ASCII names used by the wind rose. -/
def str_upper (s : String) : String :=
  String.mk (s.data.map Char.toUpper)

/-- Python str.lower, used to probe case-insensitive lookups. -/
def str_lower (s : String) : String :=
  String.mk (s.data.map Char.toLower)

/-- Compass.wind_rose: the 16 compass point names with their angles. -/
noncomputable def Compass.wind_rose : List (String × ℝ) :=
  [("N", 0.0),
   ("NNE", Real.pi / 8),
   ("NE", Real.pi / 4),
   ("ENE", Real.pi * 3 / 8),
   ("E", Real.pi / 2),
   ("ESE", Real.pi * 5 / 8),
   ("SE", Real.pi * 3 / 4),
   ("SSE", Real.pi * 7 / 8),
   ("S", Real.pi),
   ("SSW", Real.pi * 9 / 8),
   ("SW", Real.pi * 5 / 4),
   ("WSW", Real.pi * 11 / 8),
   ("W", Real.pi * 3 / 2),
   ("WNW", Real.pi * 13 / 8),
   ("NW", Real.pi * 7 / 4),
   ("NNW", Real.pi * 15 / 8)]

/-- Heading lookup inside Compass.cardinal_point: uppercase the heading
and look it up in wind_rose; none models a failed membership test. -/
noncomputable def Compass.resolve (heading : String) : Option ℝ :=
  List.lookup (str_upper heading) Compass.wind_rose

/-- Compass.cardinal_point: on a known heading assign the resolved angle
through the angle setter; on an unknown heading only log, leaving the
state untouched. -/
noncomputable def Compass.cardinal_point (s : CompassState ℝ) (heading : String) :
    CompassState ℝ × List (Event ℝ) :=
  match Compass.resolve heading with
  | some a => Compass.set_angle s a
  | none => (s, [])

/-- Compass.__init__: the initial widget state.  dt is round(1/24, 2),
that is 0.04; display_compass is called at the end of the constructor, so
render_angle starts at animation_angle = 0. -/
noncomputable def Compass.initState : CompassState ℝ :=
  { angle_max := 2 * Real.pi,
    angle_min := -(2 * Real.pi),
    angle_resolution := Real.pi / 180,
    angle_step := 3,
    angle := 0,
    animation_angle := 0,
    render_angle := 0,
    animation_max_time := 1.75,
    animation_active := false,
    animation_direction := 1,
    animation_next := NextStep.move,
    k := 100,
    m := 1,
    k1_drag := 0.5,
    v0 := 1.0,
    h0 := 0.0,
    dt := 0.04,
    spring := none }

/-- The wind rose point names in source order. -/
def wind_names : List String :=
  ["N", "NNE", "NE", "ENE", "E", "ESE", "SE", "SSE",
   "S", "SSW", "SW", "WSW", "W", "WNW", "NW", "NNW"]

/-- Structural invariant of reachable widget states: the angle bounds are
the source constants, one angular step is nonnegative, the direction is
one of the two legal values and points from animation_angle toward the
committed target, and both stored angles lie inside the bounds. -/
def Compass.Inv (s : CompassState ℝ) : Prop :=
  s.angle_min = -(2 * Real.pi) ∧
  s.angle_max = 2 * Real.pi ∧
  0 ≤ s.angle_step * s.angle_resolution ∧
  (s.animation_direction = 1 ∨ s.animation_direction = -1) ∧
  s.angle_min ≤ s.angle ∧ s.angle ≤ s.angle_max ∧
  s.angle_min ≤ s.animation_angle ∧ s.animation_angle ≤ s.angle_max ∧
  (s.animation_direction = 1 → s.animation_angle ≤ s.angle) ∧
  (s.animation_direction = -1 → s.angle ≤ s.animation_angle)

/-- Oscillator of the C2 witness: drag-free unit spring one step away
from height 99/100. -/
def c2wsp : DampedSpring ℚ :=
  { dt := 1/10, k := 1, m := 1, k1_drag := 0,
    h := 1, v := 0, a := 0, K := 0, V := 1/2, E := 1/2 }

/-- Concrete widget state for the C2 witness: mid-bounce on c2wsp. -/
def c2w : CompassState ℚ :=
  { angle_max := 7, angle_min := -7, angle_resolution := 1/60, angle_step := 3,
    angle := 1, animation_angle := 1, render_angle := 1,
    animation_max_time := 7/4, animation_active := true, animation_direction := 1,
    animation_next := NextStep.bounce,
    k := 1, m := 1, k1_drag := 0, v0 := 0, h0 := 1, dt := 1/10,
    spring := some c2wsp }

/-- Concrete widget state for the C3 witness: moving from angle 0 toward
target 1 with one step equal to 3 * (1/60) = 1/20. -/
def c3w : CompassState ℚ :=
  { angle_max := 7, angle_min := -7, angle_resolution := 1/60, angle_step := 3,
    angle := 1, animation_angle := 0, render_angle := 0,
    animation_max_time := 7/4, animation_active := true, animation_direction := 1,
    animation_next := NextStep.move,
    k := 100, m := 1, k1_drag := 1/2, v0 := 1, h0 := 0, dt := 1/25,
    spring := none }

/-- Concrete widget state for the C4 counterexample: a Moving state that
has arrived at its target (distance 0), configured with the source
defaults h0 = 0, v0 = 1, dt = 0.04, k = 100, m = 1, k1_drag = 0.5, so
the next tick enters the bounce phase and builds the oscillator. -/
def c4cex : CompassState ℚ :=
  { angle_max := 7, angle_min := -7, angle_resolution := 1/60, angle_step := 3,
    angle := 1/2, animation_angle := 1/2, render_angle := 1/2,
    animation_max_time := 7/4, animation_active := true, animation_direction := 1,
    animation_next := NextStep.move,
    k := 100, m := 1, k1_drag := 1/2, v0 := 1, h0 := 0, dt := 1/25,
    spring := none }

/-- Oscillator of the C5 counterexample: built exactly as animate_move
builds it from the source default configuration dt = 0.04, k = 100,
m = 1, k1_drag = 0.5, h0 = 0, v0 = 1. -/
def c5sp : DampedSpring ℚ := DampedSpring.init (1/25) 100 1 (1/2) 0 1

/-- Concrete widget state for the C5 counterexample: a Bouncing state
with the source default spring configuration and a maximum animation
time of 0.0125 s (one notch of the t_max slider of the demo GUI); the
scheduler cadence is the source value int(1000/24) = 41 ms. -/
def c5cex : CompassState ℚ :=
  { angle_max := 7, angle_min := -7, angle_resolution := 1/60, angle_step := 3,
    angle := 1, animation_angle := 1, render_angle := 1,
    animation_max_time := 1/80, animation_active := true, animation_direction := 1,
    animation_next := NextStep.bounce,
    k := 100, m := 1, k1_drag := 1/2, v0 := 1, h0 := 0, dt := 1/25,
    spring := some c5sp }

/-- Oscillator of the C5 witness: a spring at rest. -/
def c5wsp : DampedSpring ℚ :=
  { dt := 1/10, k := 1, m := 1, k1_drag := 0,
    h := 0, v := 0, a := 0, K := 0, V := 0, E := 0 }

/-- Concrete widget state for the C5 witness: a Bouncing state whose
spring is at rest, so the very next tick past the time bound ends the
phase. -/
def c5w : CompassState ℚ :=
  { angle_max := 7, angle_min := -7, angle_resolution := 1/60, angle_step := 3,
    angle := 1, animation_angle := 1, render_angle := 1,
    animation_max_time := 7/4, animation_active := true, animation_direction := 1,
    animation_next := NextStep.bounce,
    k := 1, m := 1, k1_drag := 0, v0 := 0, h0 := 0, dt := 1/10,
    spring := some c5wsp }

/-- Concrete widget state for the C6 counterexample: the committed target
is the upper clamp bound 2*pi (e.g. after set_angle 7), the stored angles
sit inside the bounds, and the bounce phase is running with the freshly
built default spring, whose next height is 4459/62500. -/
noncomputable def c6cex : CompassState ℝ :=
  { angle_max := 2 * Real.pi, angle_min := -(2 * Real.pi),
    angle_resolution := Real.pi / 180, angle_step := 3,
    angle := 2 * Real.pi, animation_angle := 2 * Real.pi - 1/10,
    render_angle := 2 * Real.pi - 1/10,
    animation_max_time := 1.75, animation_active := true, animation_direction := 1,
    animation_next := NextStep.bounce,
    k := 100, m := 1, k1_drag := 0.5, v0 := 1.0, h0 := 0.0, dt := 0.04,
    spring := some (DampedSpring.init 0.04 100 1 0.5 0 1) }

/-- Concrete oscillator state for the C7 witness: drag-free, unit spring
and mass, at the bottom of the swing with unit velocity, with its energy
fields consistent with (h, v). -/
def c7w : DampedSpring ℚ :=
  { dt := 1, k := 1, m := 1, k1_drag := 0, h := 0, v := 1,
    a := 0, K := 1/2, V := 0, E := 1/2 }

/-- Claim C1: one integration step (DampedSpring.bounce via calc_force)
computes acceleration = -(k/m)*h - (k1_drag/m)*v from the incoming state,
then velocity += acceleration*dt, then displacement += velocity*dt, each
update reading the value produced by the previous one, and returns the
resulting new displacement. -/
theorem claim_C1 {α : Type} [LinearOrderedField α] (s : DampedSpring α) :
    (DampedSpring.bounce s).1.a = -(s.k / s.m) * s.h - s.k1_drag / s.m * s.v ∧
    (DampedSpring.bounce s).1.v =
      s.v + (-(s.k / s.m) * s.h - s.k1_drag / s.m * s.v) * s.dt ∧
    (DampedSpring.bounce s).1.h =
      s.h + (s.v + (-(s.k / s.m) * s.h - s.k1_drag / s.m * s.v) * s.dt) * s.dt ∧
    (DampedSpring.bounce s).2 = (DampedSpring.bounce s).1.h := by
  refine ⟨?_, ?_, ?_, rfl⟩ <;>
    · simp only [DampedSpring.bounce, DampedSpring.calc_force, DampedSpring.calc_energy]
      ring

/-- Claim C7 counterexample: with drag_coefficient = 0 (dt = 1/2, k = 1,
m = 1, h0 = 0, v0 = 1) the energy reported after one bounce step is
85/128, not the initial energy m*v0^2/2 + k*h0^2/2 = 1/2: the explicit
Euler integrator does not conserve the reported total energy exactly. -/
theorem claim_C7_cex :
    (DampedSpring.init ((1:ℚ)/2) 1 1 0 0 1).k1_drag = 0 ∧
    ((1:ℚ) * 1^2/2 + 1 * 0^2/2 = 1/2) ∧
    (DampedSpring.bounce (DampedSpring.init ((1:ℚ)/2) 1 1 0 0 1)).1.E = 85/128 ∧
    (85/128 : ℚ) ≠ 1/2 := by
  refine ⟨?_, by norm_num, ?_, by norm_num⟩ <;>
    norm_num [DampedSpring.init, DampedSpring.bounce, DampedSpring.calc_force,
      DampedSpring.calc_energy]

/-- Claim C7 (amended): when drag_coefficient = 0 and the mass is
nonzero, each integration step exactly conserves the shifted energy
E - (k*dt/2)*h*v computed from the reported total energy and the current
state; the reported total energy E itself is not exactly conserved. -/
theorem claim_C7 (s : DampedSpring ℚ) (hdrag : s.k1_drag = 0) (hm : s.m ≠ 0)
    (hE : s.E = s.m * s.v^2/2 + s.k * s.h^2/2) :
    (DampedSpring.calc_force s).E
      - s.k * s.dt / 2 * ((DampedSpring.calc_force s).h * (DampedSpring.calc_force s).v)
    = s.E - s.k * s.dt / 2 * (s.h * s.v) := by
  simp only [DampedSpring.calc_force, DampedSpring.calc_energy, hdrag, hE]
  field_simp
  ring

/-- Witness for claim C7 at the concrete state c7w. -/
theorem claim_C7_witness :
    c7w.k1_drag = 0 ∧ c7w.m ≠ 0 ∧ c7w.E = c7w.m * c7w.v^2/2 + c7w.k * c7w.h^2/2 ∧
    ((DampedSpring.calc_force c7w).E
        - c7w.k * c7w.dt / 2 * ((DampedSpring.calc_force c7w).h * (DampedSpring.calc_force c7w).v)
      = c7w.E - c7w.k * c7w.dt / 2 * (c7w.h * c7w.v)) :=
  ⟨rfl, by norm_num [c7w], by norm_num [c7w],
    claim_C7 c7w rfl (by norm_num [c7w]) (by norm_num [c7w])⟩

/-- Claim C8 counterexample: DampedSpring.__init__ accepts a non-positive
time step and mass and negative spring and drag constants without any
error: the oscillator is constructed and stores the offending values,
so configuration does not fail eagerly with InvalidParameter. -/
theorem claim_C8_cex :
    (DampedSpring.init (-1 : ℚ) (-2) (-3) (-4) 5 6).dt = -1 ∧
    (DampedSpring.init (-1 : ℚ) (-2) (-3) (-4) 5 6).k = -2 ∧
    (DampedSpring.init (-1 : ℚ) (-2) (-3) (-4) 5 6).m = -3 ∧
    (DampedSpring.init (-1 : ℚ) (-2) (-3) (-4) 5 6).k1_drag = -4 := by
  refine ⟨?_, ?_, ?_, ?_⟩ <;>
    simp [DampedSpring.init, DampedSpring.calc_force, DampedSpring.calc_energy]

/-- Claim C8 (amended): configuration performs no validation at all:
DampedSpring.__init__ stores whatever time step, spring constant, mass
and drag coefficient it is given, unchanged (so the values are indeed
never silently clamped), and no InvalidParameter error exists. -/
theorem claim_C8 (dt k m k1_drag h0 v0 : ℚ) :
    (DampedSpring.init dt k m k1_drag h0 v0).dt = dt ∧
    (DampedSpring.init dt k m k1_drag h0 v0).k = k ∧
    (DampedSpring.init dt k m k1_drag h0 v0).m = m ∧
    (DampedSpring.init dt k m k1_drag h0 v0).k1_drag = k1_drag := by
  refine ⟨?_, ?_, ?_, ?_⟩ <;>
    simp [DampedSpring.init, DampedSpring.calc_force, DampedSpring.calc_energy]

/-- Claim C2: on every tick in the Bouncing phase the controller
performs exactly one integration step (the stored spring advances by one
bounce); the phase stays Bouncing exactly when elapsed < animation_max_time
or the new displacement exceeds 0.001 in absolute value, in which case the
drawn render angle is target_angle + direction * displacement and nothing
is emitted; on the first tick where both conditions fail the phase becomes
Idle, the render angle and the stored animation angle are set exactly to
the target angle, and animation_end is emitted with duration = elapsed. -/
theorem claim_C2 {α : Type} [LinearOrderedField α] (s : CompassState α)
    (sp : DampedSpring α) (elapsed : α)
    (hact : s.animation_active = true) (hnext : s.animation_next = NextStep.bounce)
    (hsp : s.spring = some sp)
    (hdir : s.animation_direction = 1 ∨ s.animation_direction = -1) :
    (Compass.tick elapsed s).1.spring = some (DampedSpring.bounce sp).1 ∧
    (Compass.phase (Compass.tick elapsed s).1 = Phase.Bouncing ↔
      (elapsed < s.animation_max_time ∨ |(DampedSpring.bounce sp).2| > 1 / 1000)) ∧
    ((elapsed < s.animation_max_time ∨ |(DampedSpring.bounce sp).2| > 1 / 1000) →
      (Compass.tick elapsed s).1.render_angle
          = s.angle + (s.animation_direction : α) * (DampedSpring.bounce sp).2 ∧
      (Compass.tick elapsed s).2 = []) ∧
    (¬(elapsed < s.animation_max_time ∨ |(DampedSpring.bounce sp).2| > 1 / 1000) →
      Compass.phase (Compass.tick elapsed s).1 = Phase.Idle ∧
      (Compass.tick elapsed s).1.render_angle = s.angle ∧
      (Compass.tick elapsed s).1.animation_angle = s.angle ∧
      (Compass.tick elapsed s).2 = [Event.animation_end elapsed]) := by
  simp only [Compass.tick, hact, if_true, hnext]
  simp only [Compass.animate_bounce, hsp, Compass.display_compass]
  split_ifs with hc hd
  · refine ⟨rfl, iff_of_true (by simp [Compass.phase, hact, hnext]) hc, fun _ => ⟨?_, rfl⟩,
      fun hn => absurd hc hn⟩
    rcases hdir with h1 | h1
    · simp [h1]
    · rw [h1] at hd; norm_num at hd
  · refine ⟨rfl, iff_of_true (by simp [Compass.phase, hact, hnext]) hc, fun _ => ⟨?_, rfl⟩,
      fun hn => absurd hc hn⟩
    rcases hdir with h1 | h1
    · rw [h1] at hd; norm_num at hd
    · simp [h1]; ring
  · refine ⟨rfl, iff_of_false (by simp [Compass.phase]) hc, fun hcc => absurd hcc hc,
      fun _ => ⟨by simp [Compass.phase], by simp, by simp, rfl⟩⟩

/-- Witness for claim C2 at the concrete bouncing state c2w with
elapsed = 0: the spring steps to 99/100 and the drawn angle is
1 + 1 * 99/100 = 199/100. -/
theorem claim_C2_witness :
    (Compass.tick (0:ℚ) c2w).1.render_angle = 199/100 ∧
    Compass.phase (Compass.tick (0:ℚ) c2w).1 = Phase.Bouncing ∧
    (Compass.tick (0:ℚ) c2w).2 = [] := by
  obtain ⟨-, hiff, hcont, -⟩ := claim_C2 c2w c2wsp 0 rfl rfl rfl (Or.inl rfl)
  have hcond : (0:ℚ) < c2w.animation_max_time ∨ |(DampedSpring.bounce c2wsp).2| > 1/1000 :=
    Or.inl (by norm_num [c2w])
  obtain ⟨hr, he⟩ := hcont hcond
  refine ⟨?_, hiff.mpr hcond, he⟩
  rw [hr]
  norm_num [c2w, c2wsp, DampedSpring.bounce, DampedSpring.calc_force, DampedSpring.calc_energy]

/-- Claim C3: on a Moving tick, while the distance from the committed
target to the stored render angle exceeds one step
(angle_step * angle_resolution), the render angle advances by exactly
angle_step * angle_resolution * direction (and is redrawn); on the first
tick where the distance is at most one step the controller transitions to
Bouncing with a freshly built oscillator instead of advancing.  The
direction was committed at set-target time by the angle setter as +1 when
the clamped target exceeds the render angle and -1 otherwise. -/
theorem claim_C3 {α : Type} [LinearOrderedField α] (s : CompassState α) (e : α)
    (hact : s.animation_active = true) (hnext : s.animation_next = NextStep.move) :
    ((|s.angle - s.animation_angle| > s.angle_step * s.angle_resolution →
      (Compass.tick e s).1.animation_angle
        = s.animation_angle + s.angle_step * s.angle_resolution * (s.animation_direction : α) ∧
      (Compass.tick e s).1.render_angle = (Compass.tick e s).1.animation_angle ∧
      Compass.phase (Compass.tick e s).1 = Phase.Moving) ∧
    (¬(|s.angle - s.animation_angle| > s.angle_step * s.angle_resolution) →
      (Compass.tick e s).1.animation_angle = s.animation_angle ∧
      Compass.phase (Compass.tick e s).1 = Phase.Bouncing ∧
      (Compass.tick e s).1.spring
        = some (DampedSpring.init s.dt s.k s.m s.k1_drag s.h0 s.v0))) ∧
    ∀ (s' : CompassState α) (v : α),
      (Compass.set_angle s' v).1.animation_direction
        = (if Compass.angle_limit s' v > s'.animation_angle then 1 else -1) ∧
      (Compass.set_angle s' v).1.angle = Compass.angle_limit s' v := by
  constructor
  · simp only [Compass.tick, hact, hnext, if_true]
    simp only [Compass.animate_move, Compass.display_compass]
    split_ifs with h
    · exact ⟨fun _ => ⟨rfl, by simp, by simp [Compass.phase, hact, hnext]⟩,
        fun hn => absurd h hn⟩
    · exact ⟨fun hc => absurd hc h, fun _ => ⟨rfl, by simp [Compass.phase, hact], rfl⟩⟩
  · intro s' v
    simp only [Compass.set_angle, Compass.animate, Compass.animate_move,
      Compass.display_compass, Compass.angle_limit]
    split_ifs <;> simp_all

/-- Witness for claim C3 at the concrete moving state c3w: distance 1
exceeds one step 1/20, so the tick advances the render angle from 0 to
0 + 3 * (1/60) * 1 = 1/20 and the phase stays Moving. -/
theorem claim_C3_witness :
    (|c3w.angle - c3w.animation_angle| > c3w.angle_step * c3w.angle_resolution) ∧
    (Compass.tick (0:ℚ) c3w).1.animation_angle = 1/20 ∧
    Compass.phase (Compass.tick (0:ℚ) c3w).1 = Phase.Moving := by
  have hfar : |c3w.angle - c3w.animation_angle| > c3w.angle_step * c3w.angle_resolution := by
    rw [show c3w.angle - c3w.animation_angle = 1 by norm_num [c3w]]
    rw [abs_of_nonneg (by norm_num)]
    norm_num [c3w]
  obtain ⟨hadv, -⟩ := (claim_C3 c3w 0 rfl rfl).1
  obtain ⟨ha, -, hp⟩ := hadv hfar
  refine ⟨hfar, ?_, hp⟩
  rw [ha]
  norm_num [c3w]

/-- Claim C4 counterexample: from the Moving state c4cex configured with
the source defaults (h0 = 0, v0 = 1, dt = 0.04, k = 100, m = 1,
k1_drag = 0.5), the tick that enters the Bouncing phase builds an
oscillator whose displacement is already 49/1250 = 0.0392 and whose
velocity is 49/50 = 0.98 at the moment the phase begins - not h0 = 0 and
v0 = 1 - because DampedSpring.__init__ itself calls calc_force and so
performs one integration step during construction. -/
theorem claim_C4_cex :
    Compass.phase c4cex = Phase.Moving ∧
    Compass.phase (Compass.tick (0:ℚ) c4cex).1 = Phase.Bouncing ∧
    (Compass.tick (0:ℚ) c4cex).1.spring.map DampedSpring.h = some (49/1250) ∧
    (Compass.tick (0:ℚ) c4cex).1.spring.map DampedSpring.v = some (49/50) ∧
    c4cex.h0 = 0 ∧ c4cex.v0 = 1 ∧ ((49:ℚ)/1250 ≠ 0) ∧ ((49:ℚ)/50 ≠ 1) := by
  refine ⟨rfl, ?_, ?_, ?_, rfl, rfl, by norm_num, by norm_num⟩ <;>
    norm_num [Compass.phase, Compass.tick, c4cex, Compass.animate_move,
      DampedSpring.init, DampedSpring.calc_force, DampedSpring.calc_energy,
      Compass.display_compass]

/-- Claim C4 (amended): every entry into the Bouncing phase stores a
fresh oscillator computed by DampedSpring.init from the configured
parameters only (so no state is carried over from any previous
oscillator), but the constructor itself performs one Euler integration
step: at the moment the phase begins the displacement and velocity equal
the result of one step from (h0, v0) rather than (h0, v0) themselves. -/
theorem claim_C4 {α : Type} [LinearOrderedField α] (s : CompassState α) (e : α)
    (hact : s.animation_active = true) (hnext : s.animation_next = NextStep.move)
    (hnear : ¬(|s.angle - s.animation_angle| > s.angle_step * s.angle_resolution)) :
    (Compass.tick e s).1.spring
      = some (DampedSpring.init s.dt s.k s.m s.k1_drag s.h0 s.v0) ∧
    ∀ (dt k m k1_drag h0 v0 : α),
      (DampedSpring.init dt k m k1_drag h0 v0).v
        = v0 + (-k / m * h0 - k1_drag / m * v0) * dt ∧
      (DampedSpring.init dt k m k1_drag h0 v0).h
        = h0 + (v0 + (-k / m * h0 - k1_drag / m * v0) * dt) * dt := by
  constructor
  · simp only [Compass.tick, hact, hnext, if_true, Compass.animate_move]
    rw [if_neg hnear]
  · intro dt k m k1_drag h0 v0
    constructor <;>
      simp [DampedSpring.init, DampedSpring.calc_force, DampedSpring.calc_energy]

/-- Witness for claim C4 at the transition state c4cex. -/
theorem claim_C4_witness :
    ¬(|c4cex.angle - c4cex.animation_angle| > c4cex.angle_step * c4cex.angle_resolution) ∧
    (Compass.tick (0:ℚ) c4cex).1.spring
      = some (DampedSpring.init c4cex.dt c4cex.k c4cex.m c4cex.k1_drag c4cex.h0 c4cex.v0) := by
  have hnear :
      ¬(|c4cex.angle - c4cex.animation_angle| > c4cex.angle_step * c4cex.angle_resolution) := by
    norm_num [c4cex]
  exact ⟨hnear, (claim_C4 c4cex 0 rfl rfl hnear).1⟩

/-- Claim C5 counterexample: a valid configuration (all source defaults,
with animation_max_time set to 0.0125 s, one notch of the t_max slider)
in the Bouncing phase, ticked at the source cadence of 41 ms: the claimed
bound is ceil(animation_max_time / tick_interval) = 1 tick, the spring
displacement 4459/62500 stays above the 0.001 floor, and after 1 tick the
phase is still Bouncing, so the bound does not hold. -/
theorem claim_C5_cex :
    (⌈((1:ℚ)/80) / (41/1000)⌉ = 1) ∧
    Compass.phase c5cex = Phase.Bouncing ∧
    c5cex.animation_max_time = 1/80 ∧
    ((1:ℚ)/1000) < |(DampedSpring.bounce c5sp).2| ∧
    Compass.phase (Compass.tickN ((41:ℚ)/1000) c5cex 1) = Phase.Bouncing := by
  refine ⟨?_, rfl, rfl, ?_, ?_⟩
  · rw [Int.ceil_eq_iff]; norm_num
  all_goals
    norm_num [Compass.tickN, Compass.tick, Compass.phase, c5cex, Compass.animate_bounce,
      c5sp, DampedSpring.bounce, DampedSpring.init, DampedSpring.calc_force,
      DampedSpring.calc_energy, Compass.display_compass,
      show |(4459:ℚ)/62500| = 4459/62500 from abs_of_nonneg (by norm_num)]

/-- Claim C5 (amended): once the Bouncing phase has been entered, a tick
returns the controller to Idle exactly when elapsed_time has reached
animation_max_time AND the new displacement is at most 0.001 in absolute
value; while either elapsed_time < animation_max_time or the displacement
exceeds the floor, the phase continues, so the phase ends within
ceil(animation_max_time / tick_interval) ticks only when the displacement
has decayed to the floor by then. -/
theorem claim_C5 {α : Type} [LinearOrderedField α] (s : CompassState α)
    (sp : DampedSpring α) (elapsed : α)
    (hact : s.animation_active = true) (hnext : s.animation_next = NextStep.bounce)
    (hsp : s.spring = some sp) :
    Compass.phase (Compass.tick elapsed s).1 = Phase.Idle ↔
      (s.animation_max_time ≤ elapsed ∧ |(DampedSpring.bounce sp).2| ≤ 1 / 1000) := by
  simp only [Compass.tick, hact, hnext, if_true]
  simp only [Compass.animate_bounce, hsp, Compass.display_compass]
  split_ifs with hc hd
  · refine iff_of_false (by simp [Compass.phase, hact, hnext]) ?_
    rintro ⟨h1, h2⟩
    rcases hc with h | h
    · exact absurd h1 (not_le.mpr h)
    · exact absurd h2 (not_le.mpr h)
  · refine iff_of_false (by simp [Compass.phase, hact, hnext]) ?_
    rintro ⟨h1, h2⟩
    rcases hc with h | h
    · exact absurd h1 (not_le.mpr h)
    · exact absurd h2 (not_le.mpr h)
  · push_neg at hc
    exact iff_of_true (by simp [Compass.phase]) hc

/-- Witness for claim C5 at the resting bouncing state c5w with
elapsed = 2 past the 1.75 s bound: the tick ends the phase. -/
theorem claim_C5_witness :
    c5w.animation_max_time ≤ 2 ∧ |(DampedSpring.bounce c5wsp).2| ≤ 1/1000 ∧
    Compass.phase (Compass.tick (2:ℚ) c5w).1 = Phase.Idle := by
  have h1 : c5w.animation_max_time ≤ (2:ℚ) := by norm_num [c5w]
  have h2 : |(DampedSpring.bounce c5wsp).2| ≤ (1:ℚ)/1000 := by
    norm_num [c5wsp, DampedSpring.bounce, DampedSpring.calc_force, DampedSpring.calc_energy]
  exact ⟨h1, h2, (claim_C5 c5w c5wsp 2 rfl rfl rfl).mpr ⟨h1, h2⟩⟩

lemma inv_angle_limit (s : CompassState ℝ) (hInv : Compass.Inv s) (v : ℝ) :
    s.angle_min ≤ Compass.angle_limit s v ∧ Compass.angle_limit s v ≤ s.angle_max := by
  obtain ⟨hmin, hmax, -⟩ := hInv
  have hmm : s.angle_min ≤ s.angle_max := by
    rw [hmin, hmax]; linarith [Real.pi_pos]
  unfold Compass.angle_limit
  split_ifs with h1 h2
  · exact ⟨le_refl _, hmm⟩
  · exact ⟨hmm, le_refl _⟩
  · exact ⟨le_of_not_lt h1, le_of_not_lt h2⟩

lemma inv_animate_move (s : CompassState ℝ) (hInv : Compass.Inv s) :
    Compass.Inv (Compass.animate_move s).1 := by
  obtain ⟨hmin, hmax, hstep, hdir, ha1, ha2, hr1, hr2, hd1, hd2⟩ := hInv
  unfold Compass.animate_move Compass.display_compass
  split_ifs with h
  · rcases hdir with hd | hd
    · have hle : s.animation_angle ≤ s.angle := hd1 hd
      rw [abs_of_nonneg (by linarith)] at h
      refine ⟨hmin, hmax, hstep, Or.inl hd, ha1, ha2, ?_, ?_, fun _ => ?_, fun hc => ?_⟩
      · simp only [hd]; push_cast; linarith
      · simp only [hd]; push_cast; linarith
      · simp only [hd]; push_cast; linarith
      · rw [hd] at hc; norm_num at hc
    · have hle : s.angle ≤ s.animation_angle := hd2 hd
      rw [abs_of_nonpos (by linarith)] at h
      refine ⟨hmin, hmax, hstep, Or.inr hd, ha1, ha2, ?_, ?_, fun hc => ?_, fun _ => ?_⟩
      · simp only [hd]; push_cast; linarith
      · simp only [hd]; push_cast; linarith
      · rw [hd] at hc; norm_num at hc
      · simp only [hd]; push_cast; linarith
  · exact ⟨hmin, hmax, hstep, hdir, ha1, ha2, hr1, hr2, hd1, hd2⟩

lemma inv_animate_bounce (elapsed : ℝ) (s : CompassState ℝ) (hInv : Compass.Inv s) :
    Compass.Inv (Compass.animate_bounce elapsed s).1 := by
  obtain ⟨hmin, hmax, hstep, hdir, ha1, ha2, hr1, hr2, hd1, hd2⟩ := hInv
  unfold Compass.animate_bounce Compass.display_compass
  cases hs : s.spring with
  | none => exact ⟨hmin, hmax, hstep, hdir, ha1, ha2, hr1, hr2, hd1, hd2⟩
  | some sp =>
    dsimp only
    split_ifs with h hd
    · exact ⟨hmin, hmax, hstep, hdir, ha1, ha2, hr1, hr2, hd1, hd2⟩
    · exact ⟨hmin, hmax, hstep, hdir, ha1, ha2, hr1, hr2, hd1, hd2⟩
    · exact ⟨hmin, hmax, hstep, hdir, ha1, ha2, ha1, ha2, fun _ => le_refl _,
        fun _ => le_refl _⟩

lemma inv_animate (s : CompassState ℝ) (hInv : Compass.Inv s) :
    Compass.Inv (Compass.animate s).1 := by
  obtain ⟨hmin, hmax, hstep, hdir, ha1, ha2, hr1, hr2, hd1, hd2⟩ := hInv
  unfold Compass.animate
  cases hn : s.animation_next with
  | move =>
    dsimp only [hn]
    exact inv_animate_move _ ⟨hmin, hmax, hstep, hdir, ha1, ha2, hr1, hr2, hd1, hd2⟩
  | bounce =>
    dsimp only [hn]
    exact inv_animate_bounce 0 _ ⟨hmin, hmax, hstep, hdir, ha1, ha2, hr1, hr2, hd1, hd2⟩

lemma inv_set_angle (s : CompassState ℝ) (v : ℝ) (hInv : Compass.Inv s) :
    Compass.Inv (Compass.set_angle s v).1 := by
  obtain ⟨hc1, hc2⟩ := inv_angle_limit s hInv v
  obtain ⟨hmin, hmax, hstep, hdir, ha1, ha2, hr1, hr2, hd1, hd2⟩ := hInv
  unfold Compass.set_angle
  have hInv3 : Compass.Inv
      { s with angle := Compass.angle_limit s v,
               animation_direction :=
                 if Compass.angle_limit s v > s.animation_angle then 1 else -1,
               animation_next := NextStep.move } := by
    refine ⟨hmin, hmax, hstep, ?_, hc1, hc2, hr1, hr2, ?_, ?_⟩ <;> dsimp only
    · split_ifs with hgt
      · exact Or.inl rfl
      · exact Or.inr rfl
    · split_ifs with hgt
      · exact fun _ => le_of_lt hgt
      · exact fun hcon => absurd hcon (by norm_num)
    · split_ifs with hgt
      · exact fun hcon => absurd hcon (by norm_num)
      · exact fun _ => le_of_not_lt hgt
  dsimp only
  by_cases hact : s.animation_active = true
  · rw [if_pos hact]
    exact hInv3
  · rw [if_neg hact]
    exact inv_animate _ hInv3

lemma inv_tick (elapsed : ℝ) (s : CompassState ℝ) (hInv : Compass.Inv s) :
    Compass.Inv (Compass.tick elapsed s).1 := by
  unfold Compass.tick
  split_ifs with hact
  · cases hn : s.animation_next with
    | move => exact inv_animate_move s hInv
    | bounce => exact inv_animate_bounce elapsed s hInv
  · exact hInv

/-- Claim C6 (amended): after every operation (set_target by angle or by
name, and the tick in every phase) the committed target angle and the
stored animation angle remain within [-2*pi, 2*pi] (the structural
invariant Inv holds initially and is preserved); the claim as stated
fails because the transient render angle drawn during a Bouncing tick
equals target + direction * displacement, which can leave the interval
(see the counterexample): only the target is ever clamped. -/
theorem claim_C6 :
    Compass.Inv Compass.initState ∧
    (∀ (s : CompassState ℝ) (v : ℝ), Compass.Inv s → Compass.Inv (Compass.set_angle s v).1) ∧
    (∀ (s : CompassState ℝ) (heading : String),
      Compass.Inv s → Compass.Inv (Compass.cardinal_point s heading).1) ∧
    (∀ (s : CompassState ℝ) (elapsed : ℝ),
      Compass.Inv s → Compass.Inv (Compass.tick elapsed s).1) ∧
    (∀ s : CompassState ℝ, Compass.Inv s →
      -(2*Real.pi) ≤ s.angle ∧ s.angle ≤ 2*Real.pi ∧
      -(2*Real.pi) ≤ s.animation_angle ∧ s.animation_angle ≤ 2*Real.pi) := by
  refine ⟨?_, fun s v h => inv_set_angle s v h, ?_, fun s e h => inv_tick e s h, ?_⟩
  · refine ⟨rfl, rfl, by simp only [Compass.initState]; positivity, Or.inl rfl,
      ?_, ?_, ?_, ?_, fun _ => le_refl _,
      fun hcon => absurd hcon (by simp [Compass.initState])⟩ <;>
      simp [Compass.initState] <;> positivity
  · intro s heading h
    unfold Compass.cardinal_point
    cases Compass.resolve heading with
    | none => exact h
    | some a => exact inv_set_angle s a h
  · intro s h
    obtain ⟨hmin, hmax, -, -, ha1, ha2, hr1, hr2, -, -⟩ := h
    rw [hmin] at ha1 hr1
    rw [hmax] at ha2 hr2
    exact ⟨ha1, ha2, hr1, hr2⟩

/-- Claim C6 counterexample: the state c6cex satisfies the structural
invariant (stored angles inside the bounds, target at the upper clamp
bound 2*pi) and its drawn render angle lies inside [-2*pi, 2*pi], yet the
next Bouncing tick draws render_angle = 2*pi + 4459/62500 > 2*pi, outside
the claimed interval. -/
theorem claim_C6_cex :
    Compass.Inv c6cex ∧
    Compass.phase c6cex = Phase.Bouncing ∧
    -(2*Real.pi) ≤ c6cex.render_angle ∧ c6cex.render_angle ≤ 2*Real.pi ∧
    2*Real.pi < (Compass.tick 0 c6cex).1.render_angle := by
  have hpi := Real.pi_gt_three
  refine ⟨⟨rfl, rfl, by simp only [c6cex]; positivity, Or.inl rfl, ?_, ?_, ?_, ?_, fun _ => ?_,
      fun hcon => absurd hcon (by simp [c6cex])⟩, rfl, ?_, ?_, ?_⟩
  · show -(2*Real.pi) ≤ 2*Real.pi
    linarith
  · show (2*Real.pi : ℝ) ≤ 2*Real.pi
    exact le_refl _
  · show -(2*Real.pi) ≤ 2*Real.pi - 1/10
    linarith
  · show (2*Real.pi - 1/10 : ℝ) ≤ 2*Real.pi
    linarith
  · show (2*Real.pi - 1/10 : ℝ) ≤ 2*Real.pi
    linarith
  · show -(2*Real.pi) ≤ c6cex.render_angle
    simp only [c6cex]
    linarith
  · show c6cex.render_angle ≤ 2*Real.pi
    simp only [c6cex]
    linarith
  · have : (Compass.tick 0 c6cex).1.render_angle = 2*Real.pi + 4459/62500 := by
      norm_num [Compass.tick, c6cex, Compass.animate_bounce, DampedSpring.bounce,
        DampedSpring.init, DampedSpring.calc_force, DampedSpring.calc_energy,
        Compass.display_compass]
    rw [this]
    linarith

/-- Witness for claim C6: the invariant holds for the initial widget
state and is preserved by a concrete set_angle call. -/
theorem claim_C6_witness :
    Compass.Inv Compass.initState ∧ Compass.Inv (Compass.set_angle Compass.initState 1).1 :=
  ⟨claim_C6.1, claim_C6.2.1 Compass.initState 1 claim_C6.1⟩

/-- Claim C9: the heading lookup of Compass.cardinal_point matches the 16
wind-rose point names case-insensitively (each name resolves identically
in upper and lower case), the 16 resolved angles are exactly k*pi/8 for
k = 0..15 in the order N, NNE, NE, ENE, E, ESE, SE, SSE, S, SSW, SW, WSW,
W, WNW, NW, NNW, and a name outside the table (such as North) does not
resolve. -/
theorem claim_C9 :
    wind_names.length = 16 ∧
    (∀ i : Fin 16,
      Compass.resolve (wind_names.getD i "") = some ((i : ℕ) * (Real.pi / 8)) ∧
      Compass.resolve (str_lower (wind_names.getD i "")) = some ((i : ℕ) * (Real.pi / 8))) ∧
    Compass.resolve "North" = none := by
  refine ⟨rfl, ?_, rfl⟩
  intro i
  fin_cases i
  · exact ⟨Eq.trans (rfl : Compass.resolve "N" = some (0.0))
        (congrArg some (by norm_num; try ring)),
      Eq.trans (rfl : Compass.resolve "n" = some (0.0))
        (congrArg some (by norm_num; try ring))⟩
  · exact ⟨Eq.trans (rfl : Compass.resolve "NNE" = some (Real.pi / 8))
        (congrArg some (by norm_num; try ring)),
      Eq.trans (rfl : Compass.resolve "nne" = some (Real.pi / 8))
        (congrArg some (by norm_num; try ring))⟩
  · exact ⟨Eq.trans (rfl : Compass.resolve "NE" = some (Real.pi / 4))
        (congrArg some (by norm_num; try ring)),
      Eq.trans (rfl : Compass.resolve "ne" = some (Real.pi / 4))
        (congrArg some (by norm_num; try ring))⟩
  · exact ⟨Eq.trans (rfl : Compass.resolve "ENE" = some (Real.pi * 3 / 8))
        (congrArg some (by norm_num; try ring)),
      Eq.trans (rfl : Compass.resolve "ene" = some (Real.pi * 3 / 8))
        (congrArg some (by norm_num; try ring))⟩
  · exact ⟨Eq.trans (rfl : Compass.resolve "E" = some (Real.pi / 2))
        (congrArg some (by norm_num; try ring)),
      Eq.trans (rfl : Compass.resolve "e" = some (Real.pi / 2))
        (congrArg some (by norm_num; try ring))⟩
  · exact ⟨Eq.trans (rfl : Compass.resolve "ESE" = some (Real.pi * 5 / 8))
        (congrArg some (by norm_num; try ring)),
      Eq.trans (rfl : Compass.resolve "ese" = some (Real.pi * 5 / 8))
        (congrArg some (by norm_num; try ring))⟩
  · exact ⟨Eq.trans (rfl : Compass.resolve "SE" = some (Real.pi * 3 / 4))
        (congrArg some (by norm_num; try ring)),
      Eq.trans (rfl : Compass.resolve "se" = some (Real.pi * 3 / 4))
        (congrArg some (by norm_num; try ring))⟩
  · exact ⟨Eq.trans (rfl : Compass.resolve "SSE" = some (Real.pi * 7 / 8))
        (congrArg some (by norm_num; try ring)),
      Eq.trans (rfl : Compass.resolve "sse" = some (Real.pi * 7 / 8))
        (congrArg some (by norm_num; try ring))⟩
  · exact ⟨Eq.trans (rfl : Compass.resolve "S" = some (Real.pi))
        (congrArg some (by norm_num; try ring)),
      Eq.trans (rfl : Compass.resolve "s" = some (Real.pi))
        (congrArg some (by norm_num; try ring))⟩
  · exact ⟨Eq.trans (rfl : Compass.resolve "SSW" = some (Real.pi * 9 / 8))
        (congrArg some (by norm_num; try ring)),
      Eq.trans (rfl : Compass.resolve "ssw" = some (Real.pi * 9 / 8))
        (congrArg some (by norm_num; try ring))⟩
  · exact ⟨Eq.trans (rfl : Compass.resolve "SW" = some (Real.pi * 5 / 4))
        (congrArg some (by norm_num; try ring)),
      Eq.trans (rfl : Compass.resolve "sw" = some (Real.pi * 5 / 4))
        (congrArg some (by norm_num; try ring))⟩
  · exact ⟨Eq.trans (rfl : Compass.resolve "WSW" = some (Real.pi * 11 / 8))
        (congrArg some (by norm_num; try ring)),
      Eq.trans (rfl : Compass.resolve "wsw" = some (Real.pi * 11 / 8))
        (congrArg some (by norm_num; try ring))⟩
  · exact ⟨Eq.trans (rfl : Compass.resolve "W" = some (Real.pi * 3 / 2))
        (congrArg some (by norm_num; try ring)),
      Eq.trans (rfl : Compass.resolve "w" = some (Real.pi * 3 / 2))
        (congrArg some (by norm_num; try ring))⟩
  · exact ⟨Eq.trans (rfl : Compass.resolve "WNW" = some (Real.pi * 13 / 8))
        (congrArg some (by norm_num; try ring)),
      Eq.trans (rfl : Compass.resolve "wnw" = some (Real.pi * 13 / 8))
        (congrArg some (by norm_num; try ring))⟩
  · exact ⟨Eq.trans (rfl : Compass.resolve "NW" = some (Real.pi * 7 / 4))
        (congrArg some (by norm_num; try ring)),
      Eq.trans (rfl : Compass.resolve "nw" = some (Real.pi * 7 / 4))
        (congrArg some (by norm_num; try ring))⟩
  · exact ⟨Eq.trans (rfl : Compass.resolve "NNW" = some (Real.pi * 15 / 8))
        (congrArg some (by norm_num; try ring)),
      Eq.trans (rfl : Compass.resolve "nnw" = some (Real.pi * 15 / 8))
        (congrArg some (by norm_num; try ring))⟩

/-- Claim C10: for every heading name that does not resolve to one of the
16 wind-rose points, Compass.cardinal_point leaves the whole controller
state (in particular target_angle, phase and render_angle) unchanged and
emits nothing; the failure is only reported through the log. -/
theorem claim_C10 (s : CompassState ℝ) (heading : String)
    (h : Compass.resolve heading = none) :
    Compass.cardinal_point s heading = (s, []) := by
  unfold Compass.cardinal_point
  rw [h]

/-- Witness for claim C10: the unknown heading XX leaves the initial
state untouched. -/
theorem claim_C10_witness :
    Compass.resolve "XX" = none ∧
    Compass.cardinal_point Compass.initState "XX" = (Compass.initState, []) :=
  ⟨rfl, claim_C10 Compass.initState "XX" rfl⟩
